import Mathlib

/-!
Verification of the match-state tracking and notification logic of
3scorebot.py, a football live-score polling bot.

The Python program is shallowly embedded as follows:

- JSON values handled by the program (raw SofaScore match records, the
  fetched payload) are modelled by the inductive type JVal.  JSON numbers
  are modelled as integers (scores are integral in the feed).
- Python dictionaries are association lists; dict.get with a default is
  the function dictGet, which raises (returns an error) when the receiver
  is not a dict, matching Python's AttributeError.
- Fallible Python code is modelled in the Except PyErr monad: an
  Except.error value corresponds to an uncaught Python exception at that
  point of the program.
- The module-level mutable state (the notified_matches set, the
  startup_message_sent flag) is threaded explicitly: the set is a list of
  JVal ids with at-most-once insertion (pyAdd), the flag is a field of
  BotState.
- The outcome of each outbound Telegram delivery
  (send_telegram_photo returning True/False) is an oracle
  sendOk : JVal → Bool, indexed by the raw match record being alerted on.
  send_telegram's boolean result is ignored by the source, so it is not
  modelled.
- The fetch environment (network success/failure, test-file state) is the
  inductive FetchEnv; fetch_live_matches is total over it, reflecting that
  the Python function catches every exception internally.

Known modelling simplifications, none load-bearing for the theorems below:
str() rendering of nested containers omits Python's repr-quoting of
strings; int(str) ignores Python's tolerance for surrounding whitespace
and underscores; Python's cross-type equalities (1 == True) are not
reflected in JVal equality; slicing a non-list payload in
format_startup_message (reachable only when the feed's events value is a
dict) is modelled as sequence truncation.
-/

/-- A JSON value as manipulated by the Python program.  Numbers are
modelled as integers. -/
inductive JVal where
  | null
  | bool (b : Bool)
  | int (n : Int)
  | str (s : String)
  | list (xs : List JVal)
  | dict (kvs : List (String × JVal))

mutual

/-- Decidable equality for JVal (Python == on these values, minus the
numeric cross-type equalities noted in the header). -/
def JVal.decEq : (a b : JVal) → Decidable (a = b)
  | .null, .null => isTrue rfl
  | .bool a, .bool b =>
    match Bool.decEq a b with
    | isTrue h => isTrue (by rw [h])
    | isFalse h => isFalse (fun hh => h (by cases hh; rfl))
  | .int a, .int b =>
    match Int.decEq a b with
    | isTrue h => isTrue (by rw [h])
    | isFalse h => isFalse (fun hh => h (by cases hh; rfl))
  | .str a, .str b =>
    match String.decEq a b with
    | isTrue h => isTrue (by rw [h])
    | isFalse h => isFalse (fun hh => h (by cases hh; rfl))
  | .list xs, .list ys =>
    match JVal.decEqList xs ys with
    | isTrue h => isTrue (by rw [h])
    | isFalse h => isFalse (fun hh => h (by cases hh; rfl))
  | .dict xs, .dict ys =>
    match JVal.decEqDict xs ys with
    | isTrue h => isTrue (by rw [h])
    | isFalse h => isFalse (fun hh => h (by cases hh; rfl))
  | .null, .bool _ => isFalse (fun h => JVal.noConfusion h)
  | .null, .int _ => isFalse (fun h => JVal.noConfusion h)
  | .null, .str _ => isFalse (fun h => JVal.noConfusion h)
  | .null, .list _ => isFalse (fun h => JVal.noConfusion h)
  | .null, .dict _ => isFalse (fun h => JVal.noConfusion h)
  | .bool _, .null => isFalse (fun h => JVal.noConfusion h)
  | .bool _, .int _ => isFalse (fun h => JVal.noConfusion h)
  | .bool _, .str _ => isFalse (fun h => JVal.noConfusion h)
  | .bool _, .list _ => isFalse (fun h => JVal.noConfusion h)
  | .bool _, .dict _ => isFalse (fun h => JVal.noConfusion h)
  | .int _, .null => isFalse (fun h => JVal.noConfusion h)
  | .int _, .bool _ => isFalse (fun h => JVal.noConfusion h)
  | .int _, .str _ => isFalse (fun h => JVal.noConfusion h)
  | .int _, .list _ => isFalse (fun h => JVal.noConfusion h)
  | .int _, .dict _ => isFalse (fun h => JVal.noConfusion h)
  | .str _, .null => isFalse (fun h => JVal.noConfusion h)
  | .str _, .bool _ => isFalse (fun h => JVal.noConfusion h)
  | .str _, .int _ => isFalse (fun h => JVal.noConfusion h)
  | .str _, .list _ => isFalse (fun h => JVal.noConfusion h)
  | .str _, .dict _ => isFalse (fun h => JVal.noConfusion h)
  | .list _, .null => isFalse (fun h => JVal.noConfusion h)
  | .list _, .bool _ => isFalse (fun h => JVal.noConfusion h)
  | .list _, .int _ => isFalse (fun h => JVal.noConfusion h)
  | .list _, .str _ => isFalse (fun h => JVal.noConfusion h)
  | .list _, .dict _ => isFalse (fun h => JVal.noConfusion h)
  | .dict _, .null => isFalse (fun h => JVal.noConfusion h)
  | .dict _, .bool _ => isFalse (fun h => JVal.noConfusion h)
  | .dict _, .int _ => isFalse (fun h => JVal.noConfusion h)
  | .dict _, .str _ => isFalse (fun h => JVal.noConfusion h)
  | .dict _, .list _ => isFalse (fun h => JVal.noConfusion h)

def JVal.decEqList : (xs ys : List JVal) → Decidable (xs = ys)
  | [], [] => isTrue rfl
  | x :: xs, y :: ys =>
    match JVal.decEq x y, JVal.decEqList xs ys with
    | isTrue h1, isTrue h2 => isTrue (by rw [h1, h2])
    | isFalse h1, _ => isFalse (fun hh => h1 (by cases hh; rfl))
    | _, isFalse h2 => isFalse (fun hh => h2 (by cases hh; rfl))
  | [], _ :: _ => isFalse (fun h => List.noConfusion h)
  | _ :: _, [] => isFalse (fun h => List.noConfusion h)

def JVal.decEqDict : (xs ys : List (String × JVal)) → Decidable (xs = ys)
  | [], [] => isTrue rfl
  | (k1, v1) :: xs, (k2, v2) :: ys =>
    match String.decEq k1 k2, JVal.decEq v1 v2, JVal.decEqDict xs ys with
    | isTrue h0, isTrue h1, isTrue h2 => isTrue (by rw [h0, h1, h2])
    | isFalse h0, _, _ => isFalse (fun hh => h0 (by cases hh; rfl))
    | _, isFalse h1, _ => isFalse (fun hh => h1 (by cases hh; rfl))
    | _, _, isFalse h2 => isFalse (fun hh => h2 (by cases hh; rfl))
  | [], _ :: _ => isFalse (fun h => List.noConfusion h)
  | _ :: _, [] => isFalse (fun h => List.noConfusion h)

end

instance : DecidableEq JVal := JVal.decEq

/-- Python exceptions that the embedded fragments can raise. -/
inductive PyErr where
  | attributeError
  | typeError
  | valueError
deriving DecidableEq

/-- Python truthiness (bool(v)) of a JSON value, as used by
`if not match_id` and by the conditional league formatting. -/
def pyTruthy : JVal → Bool
  | .null => false
  | .bool b => b
  | .int n => n != 0
  | .str s => !(s == "")
  | .list xs => !xs.isEmpty
  | .dict kvs => !kvs.isEmpty

mutual

/-- Python str() of a JSON value, as used by f-string interpolation.
Container rendering is simplified (no repr-quoting of nested strings);
the program only interpolates leaf values in practice. -/
def pyStr : JVal → String
  | .null => "None"
  | .bool b => if b then "True" else "False"
  | .int n => toString n
  | .str s => s
  | .list xs => "[" ++ pyStrList xs ++ "]"
  | .dict kvs => "\x7b" ++ pyStrDict kvs ++ "\x7d"

def pyStrList : List JVal → String
  | [] => ""
  | [x] => pyStr x
  | x :: xs => pyStr x ++ ", " ++ pyStrList xs

def pyStrDict : List (String × JVal) → String
  | [] => ""
  | [(k, v)] => k ++ ": " ++ pyStr v
  | (k, v) :: kvs => k ++ ": " ++ pyStr v ++ ", " ++ pyStrDict kvs

end

/-- Python v.get(k, dflt): key lookup with a default on a dict; on any
non-dict receiver the attribute access itself raises AttributeError. -/
def dictGet (v : JVal) (k : String) (dflt : JVal) : Except PyErr JVal :=
  match v with
  | .dict kvs => .ok ((List.lookup k kvs).getD dflt)
  | _ => .error .attributeError

/-- Decimal value of a digit character, if any. -/
def digitVal? (c : Char) : Option Nat :=
  if c.isDigit then some (c.toNat - 48) else none

def digitsValAux : List Char → Nat → Option Nat
  | [], acc => some acc
  | c :: cs, acc =>
    match digitVal? c with
    | some d => digitsValAux cs (acc * 10 + d)
    | none => none

/-- Value of a nonempty all-digit character sequence. -/
def digitsVal? : List Char → Option Nat
  | [] => none
  | cs => digitsValAux cs 0

/-- Python int(s) on a string: optional sign followed by digits, none on
anything else (Python's tolerance for surrounding whitespace and
underscores is not modelled). -/
def pyIntOfString (s : String) : Option Int :=
  match s.data with
  | '-' :: cs => (digitsVal? cs).map (fun n => -(n : Int))
  | '+' :: cs => (digitsVal? cs).map (fun n => (n : Int))
  | cs => (digitsVal? cs).map (fun n => (n : Int))

/-- Python int(v): identity on ints, 0/1 on bools, decimal parse on
strings (ValueError on failure), TypeError on None and containers. -/
def pyInt (v : JVal) : Except PyErr Int :=
  match v with
  | .int n => .ok n
  | .bool b => .ok (if b then 1 else 0)
  | .str s =>
    match pyIntOfString s with
    | some n => .ok n
    | none => .error .valueError
  | _ => .error .typeError

/-- The normalized match shape produced by parse_sofascore_match: the
dict it returns, with the integer scores as Lean integers and the other
values kept as the JSON values the source stores there. -/
structure ParsedMatch where
  id : JVal
  home : JVal
  away : JVal
  gh : Int
  ga : Int
  status : JVal
  league : JVal
deriving DecidableEq

/-- parse_sofascore_match (3scorebot.py lines 87-113).  Each .get chain
is a dictGet chain; the two `if x is None` normalizations precede the
status/league extraction as in the source, and the int() coercions run
last, at the construction of the returned dict. -/
def parse_sofascore_match (m : JVal) : Except PyErr ParsedMatch := do
  let homeTeamD ← dictGet m "homeTeam" (.dict [])
  let home ← dictGet homeTeamD "name" (.str "Home")
  let awayTeamD ← dictGet m "awayTeam" (.dict [])
  let away ← dictGet awayTeamD "name" (.str "Away")
  let homeScoreD ← dictGet m "homeScore" (.dict [])
  let ghRaw ← dictGet homeScoreD "current" (.int 0)
  let awayScoreD ← dictGet m "awayScore" (.dict [])
  let gaRaw ← dictGet awayScoreD "current" (.int 0)
  let ghRaw := if ghRaw = .null then .int 0 else ghRaw
  let gaRaw := if gaRaw = .null then .int 0 else gaRaw
  let statusD ← dictGet m "status" (.dict [])
  let status ← dictGet statusD "description" (.str "In Play")
  let tournD ← dictGet m "tournament" (.dict [])
  let league ← dictGet tournD "name" (.str "Unknown League")
  let tournD2 ← dictGet m "tournament" (.dict [])
  let categoryD ← dictGet tournD2 "category" (.dict [])
  let category ← dictGet categoryD "name" (.str "")
  let full_league_name :=
    if pyTruthy category then JVal.str (pyStr category ++ " - " ++ pyStr league) else league
  let match_id ← dictGet m "id" .null
  let gh ← pyInt ghRaw
  let ga ← pyInt gaRaw
  return { id := match_id, home := home, away := away, gh := gh, ga := ga,
           status := status, league := full_league_name }

/-- The detector's trigger condition on scores, 3scorebot.py line 209
(and repeated verbatim at line 256):
(gh == 3 and ga == 0) or (gh == 0 and ga == 3). -/
def threeNil (d : ParsedMatch) : Prop :=
  (d.gh = 3 ∧ d.ga = 0) ∨ (d.gh = 0 ∧ d.ga = 3)

instance (d : ParsedMatch) : Decidable (threeNil d) := by
  unfold threeNil; infer_instance

/-- Python set.add on the notified set: insert unless already present. -/
def pyAdd (x : JVal) (s : List JVal) : List JVal :=
  if x ∈ s then s else x :: s

/-- The alert caption built at 3scorebot.py lines 213-221. -/
def alertCaption (d : ParsedMatch) : String :=
  let scorer := if d.gh = 3 then d.home else d.away
  "⚽ *GOAL ALERT!*\n\n" ++
  pyStr scorer ++ " now leads *3 - 0*!\n\n" ++
  pyStr d.home ++ " *" ++ toString d.gh ++ "* - *" ++ toString d.ga ++ "* " ++ pyStr d.away ++ "\n" ++
  "⏱️ **" ++ pyStr d.status ++ "**\n\n" ++
  "🏆 " ++ pyStr d.league ++ "\n" ++
  "🔥 *Stake Now!* 🔥\n" ++
  "_Avoid: Gibraltar, 2 Bundesliga, U-anything, Championship, Arab Leagues, too many goals too fast_"

/-- One outbound alert: the send_telegram_photo attempt made for a
triggering match (the attempt happens whether or not delivery then
succeeds). -/
structure Alert where
  id : JVal
  caption : String
deriving DecidableEq

/-- The body of the for-loop of check_for_3goals_and_alert
(3scorebot.py lines 197-225) for a single raw record m, threading the
notified set s.  Returns the updated set and the alert attempts made.
sendOk is the delivery oracle: the boolean result of
send_telegram_photo for the alert on record m. -/
def checkOne (sendOk : JVal → Bool) (s : List JVal) (m : JVal) :
    Except PyErr (List JVal × List Alert) := do
  let d ← parse_sofascore_match m
  if pyTruthy d.id = false then
    return (s, [])
  else if threeNil d ∧ d.id ∉ s then
    let a : Alert := { id := d.id, caption := alertCaption d }
    if sendOk m then
      return (pyAdd d.id s, [a])
    else
      return (s, [a])
  else
    return (s, [])

/-- check_for_3goals_and_alert (3scorebot.py lines 196-225): one pass of
the detector over the supplied record sequence.  The global
notified_matches set is threaded explicitly as s. -/
def check_for_3goals_and_alert (sendOk : JVal → Bool) :
    List JVal → List JVal → Except PyErr (List JVal × List Alert)
  | s, [] => .ok (s, [])
  | s, m :: ms => do
    let (s1, as1) ← checkOne sendOk s m
    let (s2, as2) ← check_for_3goals_and_alert sendOk s1 ms
    return (s2, as1 ++ as2)

/-- Iterated detector passes: the detector part of successive poll
cycles, fed one record list per poll. -/
def runPasses (sendOk : JVal → Bool) :
    List JVal → List (List JVal) → Except PyErr (List JVal × List Alert)
  | s, [] => .ok (s, [])
  | s, ms :: rest => do
    let (s1, as1) ← check_for_3goals_and_alert sendOk s ms
    let (s2, as2) ← runPasses sendOk s1 rest
    return (s2, as1 ++ as2)

/-- The environment a single fetch_live_matches call runs against: which
branch is taken (test file vs live API) and how the I/O turns out. -/
inductive FetchEnv where
  /-- TEST_MODE on, os.path.exists(TEST_FILE) is false. -/
  | testFileMissing
  /-- TEST_MODE on, file present but json.load raises JSONDecodeError. -/
  | testFileBadJson
  /-- TEST_MODE on, any other exception while reading the file. -/
  | testFileReadError
  /-- TEST_MODE on, the file parses to the JSON document data. -/
  | testFileOk (data : JVal)
  /-- Live mode, the request raises a curl_cffi RequestException
  (timeout, connection error, or HTTPError from raise_for_status on a
  non-2xx response). -/
  | liveRequestError
  /-- Live mode, 2xx response whose body fails response.json(). -/
  | liveBadJson
  /-- Live mode, any other unexpected exception. -/
  | liveUnexpectedError
  /-- Live mode, 2xx response whose body parses to data. -/
  | liveOk (data : JVal)
deriving DecidableEq

/-- Python len() is defined on strings, lists and dicts. -/
def pySized : JVal → Bool
  | .str _ => true
  | .list _ => true
  | .dict _ => true
  | _ => false

/-- The statement matches = data.get('events', []) followed by len() inside
both try blocks of fetch_live_matches: a non-dict payload
(AttributeError from .get) or an unsized events value (TypeError from
len) is swallowed by the enclosing except handlers, yielding []. -/
def getEvents (data : JVal) : JVal :=
  match data with
  | .dict kvs =>
    match List.lookup "events" kvs with
    | none => .list []
    | some v => if pySized v then v else .list []
  | _ => .list []

/-- fetch_live_matches (3scorebot.py lines 116-169).  Total: every
exception raised inside the function is caught by its handlers, which
return the empty list. -/
def fetch_live_matches : FetchEnv → JVal
  | .testFileOk data => getEvents data
  | .liveOk data => getEvents data
  | _ => .list []

/-- Python iteration (for m in v) over the values fetch can hand back:
list elements, string characters, dict keys; TypeError otherwise. -/
def pyToList : JVal → Except PyErr (List JVal)
  | .list xs => .ok xs
  | .str s => .ok (s.data.map (fun c => .str (String.singleton c)))
  | .dict kvs => .ok (kvs.map (fun kv => .str kv.1))
  | _ => .error .typeError

/-- "\n".join(lines), 3scorebot.py line 193. -/
def pyJoin (sep : String) : List String → String
  | [] => ""
  | [x] => x
  | x :: xs => x ++ sep ++ pyJoin sep xs

/-- The fixed message returned by format_startup_message when no match
survives the [:10] slice, 3scorebot.py line 179. -/
def noLiveMatchesMsg : String :=
  "⚡ *Live Matches at Startup*\n\n_No live matches found on SofaScore._"

/-- The trailing count line of the startup summary,
3scorebot.py lines 188-191; truncated is len(matches) > len(top_matches). -/
def totalLine (total : Nat) (truncated : Bool) : String :=
  if truncated then
    "_" ++ toString total ++ " total live matches found. Check the next alert for 3-0 scores._"
  else
    "_" ++ toString total ++ " total live matches found._"

/-- The three lines appended for one parsed match in the startup summary
body, 3scorebot.py lines 184-186. -/
def matchLines (d : ParsedMatch) : List String :=
  ["*" ++ pyStr d.league ++ "*",
   pyStr d.home ++ " *" ++ toString d.gh ++ "* - *" ++ toString d.ga ++ "* " ++ pyStr d.away ++ " — " ++ pyStr d.status,
   ""]

/-- Body of the startup summary: the for-loop of format_startup_message
over the sliced record list, parsing each record. -/
def startupBody : List JVal → Except PyErr (List String)
  | [] => .ok []
  | m :: ms => do
    let d ← parse_sofascore_match m
    let rest ← startupBody ms
    return matchLines d ++ rest

/-- The full lines list assembled by format_startup_message in its
non-empty branch: header, per-match blocks for the [:10] slice, and the
trailing count line. -/
def startup_lines (mlist : List JVal) : Except PyErr (List String) := do
  let top := mlist.take 10
  let body ← startupBody top
  return ["⚡ *Top 10 Live Matches at Startup*\n"] ++ body ++
    [totalLine mlist.length (decide (mlist.length > top.length))]

/-- format_startup_message (3scorebot.py lines 173-193). -/
def format_startup_message (mlist : List JVal) : Except PyErr String := do
  let top := mlist.take 10
  if top = [] then
    return noLiveMatchesMsg
  else
    let ls ← startup_lines mlist
    return pyJoin "\n" ls

/-- The two module-level mutable flags relevant to run_bot:
notified_matches (line 43) and startup_message_sent (line 44). -/
structure BotState where
  notified : List JVal
  startup_message_sent : Bool
deriving DecidableEq

/-- The initial module state: empty notified set, startup flag false. -/
def initState : BotState := { notified := [], startup_message_sent := false }

/-- An observable outbound message of one cycle: an alert attempt from
the detector, or the startup summary sent by send_telegram. -/
inductive Event where
  | alert (a : Alert)
  | startup (msg : String)
deriving DecidableEq

/-- The for-loop at 3scorebot.py lines 254-257: after the startup
message, every match whose parsed scores meet the threeNil condition has
its id added to the notified set, with no id-presence check and no
delivery involved. -/
def startupAdds : List JVal → List JVal → Except PyErr (List JVal)
  | s, [] => .ok s
  | s, m :: ms => do
    let d ← parse_sofascore_match m
    if threeNil d then
      startupAdds (pyAdd d.id s) ms
    else
      startupAdds s ms

/-- One iteration of the while-loop of run_bot (3scorebot.py lines
242-257, the sleep aside): fetch, detector pass, and the
startup-message block when the flag is still unset.  env describes this
cycle's fetch outcome, sendOk this cycle's delivery outcomes. -/
def runCycle (sendOk : JVal → Bool) (env : FetchEnv) (st : BotState) :
    Except PyErr (BotState × List Event) := do
  let fetched := fetch_live_matches env
  let mlist ← pyToList fetched
  let (s1, alerts) ← check_for_3goals_and_alert sendOk st.notified mlist
  if st.startup_message_sent then
    return ({ notified := s1, startup_message_sent := true }, alerts.map Event.alert)
  else
    let msg ← format_startup_message mlist
    let s2 ← startupAdds s1 mlist
    return ({ notified := s2, startup_message_sent := true },
            alerts.map Event.alert ++ [Event.startup msg])

/-- run_bot over a finite schedule of poll cycles, one FetchEnv per
cycle, collecting each cycle's outbound events. -/
def run_bot (sendOk : JVal → Bool) :
    BotState → List FetchEnv → Except PyErr (BotState × List (List Event))
  | st, [] => .ok (st, [])
  | st, env :: envs => do
    let (st1, evs) ← runCycle sendOk env st
    let (st2, evss) ← run_bot sendOk st1 envs
    return (st2, evs :: evss)

/-- Number of alert attempts for a given match id. -/
def alertCount (i : JVal) (as : List Alert) : Nat :=
  as.countP (fun a => decide (a.id = i))

/-- Number of startup-summary messages among a cycle's events. -/
def startupCount (evs : List Event) : Nat :=
  evs.countP (fun e => match e with | .startup _ => true | _ => false)

/-- Record m triggers an alert for id i: it parses, its id is i, i is
truthy, and the parsed scores meet the trigger condition. -/
def triggersAlert (m : JVal) (i : JVal) : Prop :=
  ∃ d, parse_sofascore_match m = .ok d ∧ d.id = i ∧ pyTruthy i = true ∧ threeNil d

/-- The failure outcomes of fetch_live_matches: everything except a
fetch whose I/O and JSON decoding succeeded. -/
def isFetchFailure : FetchEnv → Bool
  | .testFileOk _ => false
  | .liveOk _ => false
  | _ => true

/-- The message ends with the given text: its final characters are
exactly suffix.data. -/
def strEndsWith (msg suffix : String) : Bool :=
  msg.data.drop (msg.data.length - suffix.data.length) == suffix.data

/-- The option holds no value or a dict: the shapes under which a
subsequent .get cannot raise AttributeError. -/
def dictOrAbsent : Option JVal → Bool
  | none => true
  | some (.dict _) => true
  | some _ => false

/-- Values the parser's int() coercion accepts, given the preceding
`if x is None: x = 0` normalization: null, bools, ints, and numeric
strings. -/
def intCoercible : JVal → Bool
  | .null => true
  | .bool _ => true
  | .int _ => true
  | .str s => (pyIntOfString s).isSome
  | _ => false

/-- The score container under the given key is absent or a dict whose
"current" value (if any) survives int(). -/
def scoreFieldOK (kvs : List (String × JVal)) (key : String) : Bool :=
  match List.lookup key kvs with
  | none => true
  | some (.dict skvs) =>
    match List.lookup "current" skvs with
    | none => true
    | some v => intCoercible v
  | some _ => false

/-- The tournament value, when present as a dict, has an absent-or-dict
category. -/
def catOK (kvs : List (String × JVal)) : Bool :=
  match List.lookup "tournament" kvs with
  | none => true
  | some (.dict tkvs) => dictOrAbsent (List.lookup "category" tkvs)
  | some _ => false

/-- Raw records on which parse_sofascore_match completes without an
exception: a dict whose accessed nested containers are dicts where
present and whose score values coerce under int(). -/
def WellFormedRecord : JVal → Bool
  | .dict kvs =>
    dictOrAbsent (List.lookup "homeTeam" kvs) &&
    dictOrAbsent (List.lookup "awayTeam" kvs) &&
    dictOrAbsent (List.lookup "status" kvs) &&
    dictOrAbsent (List.lookup "tournament" kvs) &&
    catOK kvs &&
    scoreFieldOK kvs "homeScore" &&
    scoreFieldOK kvs "awayScore"
  | _ => false

/-- Concrete raw record: id 7, team A leading team B 3-0. -/
def mA30 : JVal := .dict
  [("id", .int 7),
   ("homeTeam", .dict [("name", .str "A")]),
   ("awayTeam", .dict [("name", .str "B")]),
   ("homeScore", .dict [("current", .int 3)]),
   ("awayScore", .dict [("current", .int 0)])]

/-- The parse of mA30. -/
def dA30 : ParsedMatch :=
  { id := .int 7, home := .str "A", away := .str "B", gh := 3, ga := 0,
    status := .str "In Play", league := .str "Unknown League" }

/-- Concrete raw record: id 9, score 4-0. -/
def m40 : JVal := .dict
  [("id", .int 9),
   ("homeScore", .dict [("current", .int 4)]),
   ("awayScore", .dict [("current", .int 0)])]

/-- The parse of m40. -/
def d40 : ParsedMatch :=
  { id := .int 9, home := .str "Home", away := .str "Away", gh := 4, ga := 0,
    status := .str "In Play", league := .str "Unknown League" }

/-- Concrete raw record with no id key and score 3-0. -/
def mNoId30 : JVal := .dict
  [("homeScore", .dict [("current", .int 3)]),
   ("awayScore", .dict [("current", .int 0)])]

/-- The parse of mNoId30: its id is None. -/
def dNoId30 : ParsedMatch :=
  { id := .null, home := .str "Home", away := .str "Away", gh := 3, ga := 0,
    status := .str "In Play", league := .str "Unknown League" }

/-- Concrete raw record whose homeScore.current is the non-numeric
string "abc": int("abc") raises ValueError in the source. -/
def badScoreRecord : JVal := .dict
  [("id", .int 5),
   ("homeScore", .dict [("current", .str "abc")])]

/-- Concrete well-formed record with a numeric-string home score and a
null away score. -/
def wfStrScore : JVal := .dict
  [("id", .int 5),
   ("homeTeam", .dict [("name", .str "H")]),
   ("homeScore", .dict [("current", .str "2")]),
   ("awayScore", .dict [("current", .null)])]

/-- Concrete minimal record: only an id; every other field defaults. -/
def minRec : JVal := .dict [("id", .int 1)]

/-- Concrete record with id 1 and score 3-0. -/
def mId1_30 : JVal := .dict
  [("id", .int 1),
   ("homeScore", .dict [("current", .int 3)])]

/-- Eleven copies of the minimal record: a fixture list longer than the
startup summary's cap of 10. -/
def elevenRecs : List JVal := List.replicate 11 minRec

/-- The lines the startup summary builds for elevenRecs: a header, ten
defaulted match blocks, and the truncated-count trailing line. -/
def linesC9 : List String :=
  "⚡ *Top 10 Live Matches at Startup*\n" ::
  (List.replicate 10 ["*Unknown League*", "Home *0* - *0* Away — In Play", ""]).flatten ++
  ["_11 total live matches found. Check the next alert for 3-0 scores._"]

/-- Concrete fetch environment: a successful test-file fetch whose only
live match is the id-less 3-0 record. -/
def envC10 : FetchEnv := .testFileOk (.dict [("events", .list [mNoId30])])

/-- The startup summary produced for the single record mNoId30. -/
def msgC10 : String :=
  "⚡ *Top 10 Live Matches at Startup*\n\n*Unknown League*\nHome *3* - *0* Away — In Play\n\n_1 total live matches found._"

/-- The bot state after the first cycle against envC10 with failing
delivery: the value None sits in the notified set. -/
def stC10 : BotState := { notified := [.null], startup_message_sent := true }

theorem exOkBind {α β : Type} (a : α) (f : α → Except PyErr β) :
    (Except.ok a >>= f) = f a := rfl

theorem exErrBind {α β : Type} (e : PyErr) (f : α → Except PyErr β) :
    ((Except.error e : Except PyErr α) >>= f) = Except.error e := rfl

theorem exPure {α : Type} (a : α) : (pure a : Except PyErr α) = Except.ok a := rfl

/-- Claim C3: for every match record, the detector triggers only when
the parsed scores are exactly (3,0) or (0,3); any record whose parsed
scores are any other pair produces no notification attempt and leaves
the notified set unchanged. -/
theorem claim_C3 (sendOk : JVal → Bool) (s : List JVal) (m : JVal) (d : ParsedMatch)
    (hparse : parse_sofascore_match m = .ok d) (hcond : ¬ threeNil d) :
    checkOne sendOk s m = .ok (s, []) := by
  unfold checkOne
  simp only [hparse, exOkBind]
  split_ifs with h1 h2 h3 <;> first | rfl | exact absurd h2.1 hcond

/-- Witness for claim C3 at the concrete 4-0 record m40. -/
theorem claim_C3_witness :
    parse_sofascore_match m40 = .ok d40 ∧ ¬ threeNil d40 ∧
    checkOne (fun _ => true) [] m40 = .ok ([], []) :=
  ⟨rfl, by decide, claim_C3 (fun _ => true) [] m40 d40 rfl (by decide)⟩

/-- Claim C5: a match record whose identifier is missing (so its parsed
id is None) is skipped by the detector: no notification attempt, no
change to the notified set, no error. -/
theorem claim_C5 (sendOk : JVal → Bool) (s : List JVal) (m : JVal) (d : ParsedMatch)
    (hparse : parse_sofascore_match m = .ok d) (hid : d.id = .null) :
    checkOne sendOk s m = .ok (s, []) := by
  unfold checkOne
  simp only [hparse, exOkBind, hid]
  rfl

/-- Witness for claim C5 at the concrete id-less 3-0 record mNoId30. -/
theorem claim_C5_witness :
    parse_sofascore_match mNoId30 = .ok dNoId30 ∧ dNoId30.id = .null ∧
    checkOne (fun _ => true) [] mNoId30 = .ok ([], []) :=
  ⟨rfl, rfl, claim_C5 (fun _ => true) [] mNoId30 dNoId30 rfl rfl⟩

/-- Claim C6 as stated is false: the parser is not exception-free and
does not default scores to 0 when int() coercion fails.  On a record
whose homeScore.current is the string "abc", int("abc") raises
ValueError. -/
theorem claim_C6_counterexample :
    parse_sofascore_match badScoreRecord = .error .valueError := rfl

theorem getD_dict_of_dictOrAbsent {o : Option JVal} (h : dictOrAbsent o = true) :
    ∃ kvs2, o.getD (JVal.dict []) = .dict kvs2 := by
  cases o with
  | none => exact ⟨[], rfl⟩
  | some v =>
    cases v with
    | dict kvs2 => exact ⟨kvs2, rfl⟩
    | null => simp [dictOrAbsent] at h
    | bool b => simp [dictOrAbsent] at h
    | int n => simp [dictOrAbsent] at h
    | str s => simp [dictOrAbsent] at h
    | list xs => simp [dictOrAbsent] at h

theorem pyInt_normalized {v : JVal} (h : intCoercible v = true) :
    ∃ n, pyInt (if v = JVal.null then JVal.int 0 else v) = .ok n := by
  cases v with
  | null => exact ⟨0, rfl⟩
  | bool b => exact ⟨if b then 1 else 0, rfl⟩
  | int n => exact ⟨n, rfl⟩
  | str s =>
    simp only [intCoercible] at h
    obtain ⟨n, hn⟩ := Option.isSome_iff_exists.mp h
    refine ⟨n, ?_⟩
    simp [pyInt, hn]
  | list xs => simp [intCoercible] at h
  | dict kvs => simp [intCoercible] at h

theorem dictGet_dict (kvs : List (String × JVal)) (k : String) (dflt : JVal) :
    dictGet (.dict kvs) k dflt = .ok ((List.lookup k kvs).getD dflt) := rfl

theorem exMapOk {α β : Type} (f : α → β) (a : α) :
    (f <$> (Except.ok a : Except PyErr α)) = .ok (f a) := rfl

theorem score_extract {kvs : List (String × JVal)} {key : String}
    (h : scoreFieldOK kvs key = true) :
    ∃ raw, dictGet ((List.lookup key kvs).getD (JVal.dict [])) "current" (JVal.int 0) = .ok raw ∧
      intCoercible raw = true := by
  unfold scoreFieldOK at h
  split at h
  · rename_i hk
    exact ⟨.int 0, by simp [hk, dictGet], rfl⟩
  · rename_i skvs hk
    split at h
    · rename_i hc
      exact ⟨.int 0, by simp [hk, dictGet, hc], rfl⟩
    · rename_i w hc
      exact ⟨w, by simp [hk, dictGet, hc], h⟩
  · rename_i hk hnd
    simp at h

theorem cat_lookup {kvs toKvs : List (String × JVal)} (h5 : catOK kvs = true)
    (hTO : (List.lookup "tournament" kvs).getD (JVal.dict []) = JVal.dict toKvs) :
    ∃ ckvs, (List.lookup "category" toKvs).getD (JVal.dict []) = JVal.dict ckvs := by
  unfold catOK at h5
  split at h5
  · rename_i hk
    rw [hk] at hTO
    simp only [Option.getD_none] at hTO
    cases hTO
    exact ⟨[], rfl⟩
  · rename_i tkvs hk
    rw [hk] at hTO
    simp only [Option.getD_some] at hTO
    cases hTO
    exact getD_dict_of_dictOrAbsent h5
  · rename_i hk hnd
    simp at h5

/-- Claim C6 amended: the parser defaults missing or null score fields
to 0 but is not exception-free on arbitrary records: it completes
without an exception on well-formed records (accessed nested containers
are dicts where present, score values coerce under int()); when int()
coercion fails it raises ValueError instead of defaulting, and a
non-dict container raises AttributeError. -/
theorem claim_C6_amended (m : JVal) (h : WellFormedRecord m = true) :
    (parse_sofascore_match m).toOption.isSome = true := by
  cases m with
  | null => simp [WellFormedRecord] at h
  | bool b => simp [WellFormedRecord] at h
  | int n => simp [WellFormedRecord] at h
  | str s => simp [WellFormedRecord] at h
  | list xs => simp [WellFormedRecord] at h
  | dict kvs =>
    simp only [WellFormedRecord, Bool.and_eq_true] at h
    obtain ⟨⟨⟨⟨⟨⟨h1, h2⟩, h3⟩, h4⟩, h5⟩, h6⟩, h7⟩ := h
    obtain ⟨htKvs, hHT⟩ := getD_dict_of_dictOrAbsent h1
    obtain ⟨atKvs, hAT⟩ := getD_dict_of_dictOrAbsent h2
    obtain ⟨stKvs, hST⟩ := getD_dict_of_dictOrAbsent h3
    obtain ⟨toKvs, hTO⟩ := getD_dict_of_dictOrAbsent h4
    obtain ⟨ckvs, hcc⟩ := cat_lookup h5 hTO
    obtain ⟨ghRaw, hGH, hGHc⟩ := score_extract h6
    obtain ⟨gaRaw, hGA, hGAc⟩ := score_extract h7
    obtain ⟨gh, hgh⟩ := pyInt_normalized hGHc
    obtain ⟨ga, hga⟩ := pyInt_normalized hGAc
    simp only [parse_sofascore_match, dictGet_dict, exOkBind, hHT, hAT, hST, hTO, hcc,
               hGH, hGA, hgh, hga, exMapOk, exPure]
    rfl

/-- Witness for the amended claim C6 at the concrete well-formed record
wfStrScore (numeric-string home score, null away score). -/
theorem claim_C6_amended_witness :
    WellFormedRecord wfStrScore = true ∧
    (parse_sofascore_match wfStrScore).toOption.isSome = true :=
  ⟨by decide, claim_C6_amended wfStrScore (by decide)⟩

/-- Claim C7: on every failure mode of the fetcher (missing or unreadable
or malformed test file; network, HTTP-status or JSON failure of the live
request) fetch_live_matches returns the empty list without raising, and
a poll cycle over that result changes nothing and emits nothing. -/
theorem claim_C7 (env : FetchEnv) (sendOk : JVal → Bool) (h : isFetchFailure env = true) :
    fetch_live_matches env = .list [] ∧
    ∀ s : List JVal, runCycle sendOk env { notified := s, startup_message_sent := true } =
      .ok ({ notified := s, startup_message_sent := true }, []) := by
  cases env with
  | testFileOk data => simp [isFetchFailure] at h
  | liveOk data => simp [isFetchFailure] at h
  | testFileMissing => exact ⟨rfl, fun s => rfl⟩
  | testFileBadJson => exact ⟨rfl, fun s => rfl⟩
  | testFileReadError => exact ⟨rfl, fun s => rfl⟩
  | liveRequestError => exact ⟨rfl, fun s => rfl⟩
  | liveBadJson => exact ⟨rfl, fun s => rfl⟩
  | liveUnexpectedError => exact ⟨rfl, fun s => rfl⟩

/-- Witness for claim C7 at the concrete failure .liveRequestError. -/
theorem claim_C7_witness :
    isFetchFailure FetchEnv.liveRequestError = true ∧
    fetch_live_matches FetchEnv.liveRequestError = .list [] ∧
    runCycle (fun _ => true) FetchEnv.liveRequestError
      { notified := [], startup_message_sent := true } =
      .ok ({ notified := [], startup_message_sent := true }, []) :=
  ⟨rfl, (claim_C7 FetchEnv.liveRequestError (fun _ => true) rfl).1,
    (claim_C7 FetchEnv.liveRequestError (fun _ => true) rfl).2 []⟩

theorem strEndsWith_append (a b : String) : strEndsWith (a ++ b) b = true := by
  unfold strEndsWith
  rw [String.data_append, List.length_append, Nat.add_sub_cancel, List.drop_left]
  exact beq_self_eq_true b.data

theorem pyJoin_append_last (sep x : String) (l : List String) (h : l ≠ []) :
    pyJoin sep (l ++ [x]) = pyJoin sep l ++ sep ++ x := by
  induction l with
  | nil => exact absurd rfl h
  | cons a as ih =>
    cases as with
    | nil => rfl
    | cons b bs =>
      rw [List.cons_append]
      show a ++ sep ++ pyJoin sep ((b :: bs) ++ [x]) = a ++ sep ++ pyJoin sep (b :: bs) ++ sep ++ x
      rw [ih (by simp)]
      simp [String.append_assoc]

theorem startupBody_length {ms : List JVal} {body : List String}
    (h : startupBody ms = .ok body) : body.length = 3 * ms.length := by
  induction ms generalizing body with
  | nil =>
    simp only [startupBody] at h
    cases h
    rfl
  | cons m ms ih =>
    simp only [startupBody] at h
    cases hp : parse_sofascore_match m with
    | error e => rw [hp] at h; simp [exErrBind] at h
    | ok d =>
      simp only [hp, exOkBind] at h
      cases hb : startupBody ms with
      | error e => rw [hb] at h; simp [exErrBind] at h
      | ok rest =>
        simp only [hb, exOkBind, exPure, Except.ok.injEq] at h
        subst h
        simp only [List.length_append, List.length_cons, List.length_nil, matchLines, ih hb]
        omega

/-- Claim C9 amended: for every nonempty list of live matches the
startup summary is the join of a lines list whose match blocks cover at
most 10 matches (three lines per listed match) and which ends with the
trailing total-count line; for the empty list the source instead
returns a fixed no-matches message with no count line. -/
theorem claim_C9_amended (mlist : List JVal) (hne : mlist ≠ []) (l : List String)
    (hl : startup_lines mlist = .ok l) :
    format_startup_message mlist = .ok (pyJoin "\n" l) ∧
    l.length = 2 + 3 * min 10 mlist.length ∧
    strEndsWith (pyJoin "\n" l)
      ("\n" ++ totalLine mlist.length (decide (mlist.length > (mlist.take 10).length))) = true := by
  have hl' := hl
  simp only [startup_lines] at hl'
  cases hb : startupBody (mlist.take 10) with
  | error e => rw [hb] at hl'; simp [exErrBind] at hl'
  | ok body =>
    simp only [hb, exOkBind, exPure, Except.ok.injEq] at hl'
    subst hl'
    refine ⟨?_, ?_, ?_⟩
    · simp only [format_startup_message]
      have htop : ¬ (mlist.take 10 = []) := by
        cases mlist with
        | nil => exact absurd rfl hne
        | cons a as => simp
      rw [if_neg htop]
      simp only [hl, exOkBind, exPure]
    · simp only [List.length_append, List.length_cons, List.length_nil,
                 startupBody_length hb, List.length_take]
      omega
    · rw [List.singleton_append, pyJoin_append_last "\n" _ _ (by simp), String.append_assoc]
      exact strEndsWith_append _ _

/-- Witness for the amended claim C9 at a concrete list of 11 records:
ten blocks are listed and the trailing line reports 11 total. -/
theorem claim_C9_witness :
    elevenRecs ≠ [] ∧ startup_lines elevenRecs = .ok linesC9 ∧
    format_startup_message elevenRecs = .ok (pyJoin "\n" linesC9) ∧
    linesC9.length = 2 + 3 * min 10 elevenRecs.length ∧
    strEndsWith (pyJoin "\n" linesC9)
      ("\n" ++ totalLine elevenRecs.length
        (decide (elevenRecs.length > (elevenRecs.take 10).length))) = true := by
  refine ⟨by decide, by rfl, ?_⟩
  exact claim_C9_amended elevenRecs (by decide) linesC9 (by rfl)

/-- Claim C9 as stated is false at the empty match list: the message
returned there is the fixed no-matches text, which contains no digit at
all and does not end with the count line used in every other case. -/
theorem claim_C9_counterexample :
    format_startup_message [] = .ok noLiveMatchesMsg ∧
    noLiveMatchesMsg.data.all (fun c => !(c.isDigit)) = true ∧
    strEndsWith noLiveMatchesMsg ("\n" ++ totalLine 0 true) = false ∧
    strEndsWith noLiveMatchesMsg ("\n" ++ totalLine 0 false) = false :=
  ⟨rfl, by decide, by decide, by decide⟩

theorem pyAdd_mem_self (x : JVal) (s : List JVal) : x ∈ pyAdd x s := by
  unfold pyAdd
  split_ifs with h
  · exact h
  · exact List.mem_cons_self x s

theorem pyAdd_mem_mono {i : JVal} (x : JVal) {s : List JVal} (h : i ∈ s) : i ∈ pyAdd x s := by
  unfold pyAdd
  split_ifs with hx
  · exact h
  · exact List.mem_cons_of_mem x h

theorem pyAdd_mem_iff {i x : JVal} {s : List JVal} (hne : x ≠ i) : i ∈ pyAdd x s ↔ i ∈ s := by
  unfold pyAdd
  split_ifs with hx
  · exact Iff.rfl
  · constructor
    · intro h
      rcases List.mem_cons.mp h with h1 | h2
      · exact absurd h1.symm hne
      · exact h2
    · exact fun h => List.mem_cons_of_mem x h

theorem alertCount_append (i : JVal) (as1 as2 : List Alert) :
    alertCount i (as1 ++ as2) = alertCount i as1 + alertCount i as2 :=
  List.countP_append _ _ _

/-- Complete case analysis of the per-record detector body: either the
record is skipped (no alert, set unchanged) or it triggers (one alert
attempt; the id is added exactly when delivery succeeded). -/
theorem checkOne_cases (sendOk : JVal → Bool) (s : List JVal) (m : JVal)
    {s1 : List JVal} {as : List Alert}
    (h : checkOne sendOk s m = .ok (s1, as)) :
    ∃ d, parse_sofascore_match m = .ok d ∧
      ((as = [] ∧ s1 = s ∧ ¬ (pyTruthy d.id = true ∧ threeNil d ∧ d.id ∉ s)) ∨
       (as = [{ id := d.id, caption := alertCaption d }] ∧
         pyTruthy d.id = true ∧ threeNil d ∧ d.id ∉ s ∧
         ((sendOk m = true ∧ s1 = pyAdd d.id s) ∨ (sendOk m = false ∧ s1 = s)))) := by
  unfold checkOne at h
  cases hp : parse_sofascore_match m with
  | error e => rw [hp] at h; simp [exErrBind] at h
  | ok d =>
    refine ⟨d, rfl, ?_⟩
    simp only [hp, exOkBind] at h
    split_ifs at h with h1 h2 h3
    · simp only [exPure, Except.ok.injEq, Prod.mk.injEq] at h
      exact Or.inl ⟨h.2.symm, h.1.symm, fun hc => by rw [hc.1] at h1; cases h1⟩
    · simp only [exPure, Except.ok.injEq, Prod.mk.injEq] at h
      refine Or.inr ⟨h.2.symm, ?_, h2.1, h2.2, Or.inl ⟨h3, h.1.symm⟩⟩
      cases ht : pyTruthy d.id
      · exact absurd ht h1
      · rfl
    · simp only [exPure, Except.ok.injEq, Prod.mk.injEq] at h
      refine Or.inr ⟨h.2.symm, ?_, h2.1, h2.2, Or.inr ⟨by simpa using h3, h.1.symm⟩⟩
      cases ht : pyTruthy d.id
      · exact absurd ht h1
      · rfl
    · simp only [exPure, Except.ok.injEq, Prod.mk.injEq] at h
      exact Or.inl ⟨h.2.symm, h.1.symm, fun hc => h2 ⟨hc.2.1, hc.2.2⟩⟩

/-- An id already in the notified set gets no alert from one record and
stays in the set. -/
theorem checkOne_notified {sendOk : JVal → Bool} {s : List JVal} {m : JVal}
    {s1 : List JVal} {as : List Alert} {i : JVal} (hmem : i ∈ s)
    (h : checkOne sendOk s m = .ok (s1, as)) :
    i ∈ s1 ∧ alertCount i as = 0 := by
  obtain ⟨d, hp, hcase⟩ := checkOne_cases _ _ _ h
  rcases hcase with ⟨ha, hs, _⟩ | ⟨ha, ht, hc, hn, hside⟩
  · subst ha; subst hs; exact ⟨hmem, rfl⟩
  · have hne : d.id ≠ i := fun he => hn (he ▸ hmem)
    subst ha
    refine ⟨?_, by simp [alertCount, List.countP_cons, hne]⟩
    rcases hside with ⟨_, hs⟩ | ⟨_, hs⟩ <;> subst hs
    · exact pyAdd_mem_mono _ hmem
    · exact hmem

/-- An id already in the notified set gets no alert from a whole
detector pass and stays in the set. -/
theorem pass_notified {sendOk : JVal → Bool} :
    ∀ {ms : List JVal} {s s2 : List JVal} {as : List Alert} {i : JVal}, i ∈ s →
      check_for_3goals_and_alert sendOk s ms = .ok (s2, as) →
      i ∈ s2 ∧ alertCount i as = 0 := by
  intro ms
  induction ms with
  | nil =>
    intro s s2 as i hmem h
    simp only [check_for_3goals_and_alert, Except.ok.injEq, Prod.mk.injEq] at h
    obtain ⟨hs, ha⟩ := h
    subst hs; subst ha
    exact ⟨hmem, rfl⟩
  | cons m ms ih =>
    intro s s2 as i hmem h
    simp only [check_for_3goals_and_alert] at h
    cases hc : checkOne sendOk s m with
    | error e => rw [hc] at h; simp [exErrBind] at h
    | ok p =>
      obtain ⟨s1, as1⟩ := p
      simp only [hc, exOkBind] at h
      cases hrest : check_for_3goals_and_alert sendOk s1 ms with
      | error e => rw [hrest] at h; simp [exErrBind] at h
      | ok q =>
        obtain ⟨s2x, as2⟩ := q
        simp only [hrest, exOkBind, exPure, Except.ok.injEq, Prod.mk.injEq] at h
        obtain ⟨hs, ha⟩ := h
        subst hs; subst ha
        obtain ⟨hm1, hc1⟩ := checkOne_notified hmem hc
        obtain ⟨hm2, hc2⟩ := ih hm1 hrest
        exact ⟨hm2, by rw [alertCount_append, hc1, hc2]⟩

/-- Claim C4: once a match id is in the notified set, no later detector
pass ever produces another notification attempt for that id, whatever
scores the later polls report (including a bounce back to 3-0), and the
id stays in the set. -/
theorem claim_C4 (sendOk : JVal → Bool) (i : JVal) :
    ∀ {polls : List (List JVal)} {s s2 : List JVal} {alerts : List Alert}, i ∈ s →
      runPasses sendOk s polls = .ok (s2, alerts) →
      alertCount i alerts = 0 ∧ i ∈ s2 := by
  intro polls
  induction polls with
  | nil =>
    intro s s2 alerts hmem h
    simp only [runPasses, Except.ok.injEq, Prod.mk.injEq] at h
    obtain ⟨hs, ha⟩ := h
    subst hs; subst ha
    exact ⟨rfl, hmem⟩
  | cons ms rest ih =>
    intro s s2 alerts hmem h
    simp only [runPasses] at h
    cases hc : check_for_3goals_and_alert sendOk s ms with
    | error e => rw [hc] at h; simp [exErrBind] at h
    | ok p =>
      obtain ⟨s1, as1⟩ := p
      simp only [hc, exOkBind] at h
      cases hrest : runPasses sendOk s1 rest with
      | error e => rw [hrest] at h; simp [exErrBind] at h
      | ok q =>
        obtain ⟨s2x, as2⟩ := q
        simp only [hrest, exOkBind, exPure, Except.ok.injEq, Prod.mk.injEq] at h
        obtain ⟨hs, ha⟩ := h
        subst hs; subst ha
        obtain ⟨hm1, hc1⟩ := pass_notified hmem hc
        obtain ⟨hc2, hm2⟩ := ih hm1 hrest
        exact ⟨by rw [alertCount_append, hc1, hc2], hm2⟩

/-- Witness for claim C4: id 1 is already notified; a later poll showing
the same match back at 3-0 produces no alert. -/
theorem claim_C4_witness :
    JVal.int 1 ∈ [JVal.int 1] ∧
    runPasses (fun _ => true) [JVal.int 1] [[mId1_30]] = .ok ([JVal.int 1], []) ∧
    alertCount (JVal.int 1) [] = 0 ∧ JVal.int 1 ∈ [JVal.int 1] :=
  ⟨by decide, by rfl,
    @claim_C4 (fun _ => true) (JVal.int 1) [[mId1_30]] [JVal.int 1] [JVal.int 1] []
      (by decide) (by rfl)⟩

/-- A record that does not trigger for id i contributes no alert for i
and does not change whether i is in the set. -/
theorem checkOne_not_triggers {sendOk : JVal → Bool} {s : List JVal} {m : JVal}
    {s1 : List JVal} {as : List Alert} {i : JVal} (hnt : ¬ triggersAlert m i)
    (h : checkOne sendOk s m = .ok (s1, as)) :
    alertCount i as = 0 ∧ (i ∈ s1 ↔ i ∈ s) := by
  obtain ⟨d, hp, hcase⟩ := checkOne_cases _ _ _ h
  rcases hcase with ⟨ha, hs, _⟩ | ⟨ha, ht, hc, hn, hside⟩
  · subst ha; subst hs; exact ⟨rfl, Iff.rfl⟩
  · have hne : d.id ≠ i := fun he => hnt ⟨d, hp, he, he ▸ ht, hc⟩
    subst ha
    refine ⟨by simp [alertCount, List.countP_cons, hne], ?_⟩
    rcases hside with ⟨_, hs⟩ | ⟨_, hs⟩ <;> subst hs
    · exact pyAdd_mem_iff hne
    · exact Iff.rfl

/-- A record that triggers for a not-yet-notified id i, with delivery
succeeding, contributes exactly one alert for i and puts i in the set. -/
theorem checkOne_triggers {sendOk : JVal → Bool} {s : List JVal} {m : JVal}
    {s1 : List JVal} {as : List Alert} {i : JVal} (htrig : triggersAlert m i)
    (hnot : i ∉ s) (hok : sendOk m = true)
    (h : checkOne sendOk s m = .ok (s1, as)) :
    alertCount i as = 1 ∧ i ∈ s1 := by
  obtain ⟨d, hp, hid, htr, hcond⟩ := htrig
  subst hid
  obtain ⟨d2, hp2, hcase⟩ := checkOne_cases _ _ _ h
  rw [hp] at hp2
  injection hp2 with hd
  subst hd
  rcases hcase with ⟨ha, hs, hneg⟩ | ⟨ha, ht2, hc2, hn2, hside⟩
  · exact absurd ⟨htr, hcond, hnot⟩ hneg
  · subst ha
    refine ⟨by simp [alertCount, List.countP_cons], ?_⟩
    rcases hside with ⟨_, hs⟩ | ⟨hf, hs⟩
    · subst hs; exact pyAdd_mem_self _ _
    · rw [hok] at hf; cases hf

/-- Claim C1: in a cycle where every delivery succeeds, a match list
containing a record that parses to 3-0 (or 0-3) with a truthy id not yet
in the notified set yields exactly one notification attempt for that id
over the whole pass, and the id ends up in the notified set. -/
theorem claim_C1 (sendOk : JVal → Bool) (i : JVal) :
    ∀ {mlist : List JVal} {s s2 : List JVal} {alerts : List Alert},
      (∀ m ∈ mlist, sendOk m = true) →
      (∃ m ∈ mlist, triggersAlert m i) →
      i ∉ s →
      check_for_3goals_and_alert sendOk s mlist = .ok (s2, alerts) →
      alertCount i alerts = 1 ∧ i ∈ s2 := by
  intro mlist
  induction mlist with
  | nil =>
    intro s s2 alerts hall hex hnot h
    obtain ⟨m, hm, _⟩ := hex
    exact absurd hm (List.not_mem_nil m)
  | cons m ms ih =>
    intro s s2 alerts hall hex hnot h
    simp only [check_for_3goals_and_alert] at h
    cases hc : checkOne sendOk s m with
    | error e => rw [hc] at h; simp [exErrBind] at h
    | ok p =>
      obtain ⟨s1, as1⟩ := p
      simp only [hc, exOkBind] at h
      cases hrest : check_for_3goals_and_alert sendOk s1 ms with
      | error e => rw [hrest] at h; simp [exErrBind] at h
      | ok q =>
        obtain ⟨s2x, as2⟩ := q
        simp only [hrest, exOkBind, exPure, Except.ok.injEq, Prod.mk.injEq] at h
        obtain ⟨hs, ha⟩ := h
        subst hs; subst ha
        by_cases htr : triggersAlert m i
        · obtain ⟨h1, h2⟩ := checkOne_triggers htr hnot (hall m (List.mem_cons_self m ms)) hc
          obtain ⟨h4, h3⟩ := pass_notified h2 hrest
          exact ⟨by rw [alertCount_append, h1, h3], h4⟩
        · obtain ⟨h1, hiff⟩ := checkOne_not_triggers htr hc
          have hnot1 : i ∉ s1 := fun hmem => hnot (hiff.mp hmem)
          have hex2 : ∃ m2 ∈ ms, triggersAlert m2 i := by
            obtain ⟨m2, hm2, ht2⟩ := hex
            rcases List.mem_cons.mp hm2 with he | hin
            · exact absurd (he ▸ ht2) htr
            · exact ⟨m2, hin, ht2⟩
          obtain ⟨h2, h3⟩ := ih (fun m2 hm2 => hall m2 (List.mem_cons_of_mem m hm2)) hex2 hnot1 hrest
          exact ⟨by rw [alertCount_append, h1, h2], h3⟩

/-- Witness for claim C1 at the concrete record mA30 (id 7, 3-0). -/
theorem claim_C1_witness :
    (JVal.int 7 ∉ ([] : List JVal)) ∧
    check_for_3goals_and_alert (fun _ => true) [] [mA30] =
      .ok ([JVal.int 7], [{ id := .int 7, caption := alertCaption dA30 }]) ∧
    alertCount (JVal.int 7) [{ id := .int 7, caption := alertCaption dA30 }] = 1 ∧
    JVal.int 7 ∈ [JVal.int 7] :=
  ⟨by decide, by rfl,
    @claim_C1 (fun _ => true) (JVal.int 7) [mA30] [] [JVal.int 7]
      [{ id := .int 7, caption := alertCaption dA30 }] (fun m _ => rfl)
      ⟨mA30, List.mem_singleton.mpr rfl, dA30, rfl, rfl, rfl, by decide⟩
      (by decide) (by rfl)⟩

/-- Claim C2 as stated is false: with delivery failing, the id of the
triggered match mA30 is not added to the notified set, so the very next
poll showing the same match attempts delivery again; two polls produce
two attempts. -/
theorem claim_C2_counterexample :
    runPasses (fun _ => false) [] [[mA30], [mA30]] =
      .ok ([], [{ id := .int 7, caption := alertCaption dA30 },
                { id := .int 7, caption := alertCaption dA30 }]) ∧
    alertCount (JVal.int 7)
      [{ id := .int 7, caption := alertCaption dA30 },
       { id := .int 7, caption := alertCaption dA30 }] = 2 :=
  ⟨by rfl, by rfl⟩

/-- Claim C2 amended: when the notification delivery for a triggered
match fails, the match id is NOT added to the notified set — the attempt
is made but the set is left unchanged, so the alert is re-attempted on
any later poll where the trigger condition still holds. -/
theorem claim_C2_amended (sendOk : JVal → Bool) (s : List JVal) (m : JVal) (d : ParsedMatch)
    (hparse : parse_sofascore_match m = .ok d) (htr : pyTruthy d.id = true)
    (hcond : threeNil d) (hnot : d.id ∉ s) (hfail : sendOk m = false) :
    checkOne sendOk s m = .ok (s, [{ id := d.id, caption := alertCaption d }]) := by
  unfold checkOne
  simp only [hparse, exOkBind]
  rw [if_neg (by simp [htr]), if_pos ⟨hcond, hnot⟩, if_neg (by simp [hfail])]
  rfl

/-- Witness for the amended claim C2 at the concrete record mA30 with
failing delivery. -/
theorem claim_C2_amended_witness :
    parse_sofascore_match mA30 = .ok dA30 ∧ threeNil dA30 ∧
    checkOne (fun _ => false) [] mA30 =
      .ok ([], [{ id := .int 7, caption := alertCaption dA30 }]) :=
  ⟨rfl, by decide,
    claim_C2_amended (fun _ => false) [] mA30 dA30 rfl rfl (by decide) (by decide) rfl⟩

theorem startupCount_append (evs1 evs2 : List Event) :
    startupCount (evs1 ++ evs2) = startupCount evs1 + startupCount evs2 :=
  List.countP_append _ _ _

theorem startupCount_map_alert (as : List Alert) :
    startupCount (as.map Event.alert) = 0 := by
  induction as with
  | nil => rfl
  | cons a as ih =>
    show startupCount (Event.alert a :: as.map Event.alert) = 0
    unfold startupCount at ih ⊢
    rw [List.countP_cons, ih]
    rfl

theorem startupCount_alerts_startup (as : List Alert) (msg : String) :
    startupCount (as.map Event.alert ++ [Event.startup msg]) = 1 := by
  rw [startupCount_append, startupCount_map_alert]
  rfl

/-- A cycle run with the startup flag already set emits no startup
message and keeps the flag set. -/
theorem runCycle_sent {sendOk : JVal → Bool} {env : FetchEnv} {st st1 : BotState}
    {evs : List Event} (hsent : st.startup_message_sent = true)
    (h : runCycle sendOk env st = .ok (st1, evs)) :
    startupCount evs = 0 ∧ st1.startup_message_sent = true := by
  simp only [runCycle] at h
  cases hml : pyToList (fetch_live_matches env) with
  | error e => rw [hml] at h; simp [exErrBind] at h
  | ok ms =>
    simp only [hml, exOkBind] at h
    cases hcp : check_for_3goals_and_alert sendOk st.notified ms with
    | error e => rw [hcp] at h; simp [exErrBind] at h
    | ok p =>
      obtain ⟨s1, alerts⟩ := p
      simp only [hcp, exOkBind] at h
      rw [if_pos hsent] at h
      simp only [exPure, Except.ok.injEq, Prod.mk.injEq] at h
      obtain ⟨hst, hevs⟩ := h
      subst hst; subst hevs
      exact ⟨startupCount_map_alert alerts, rfl⟩

/-- A cycle run with the startup flag unset emits exactly one startup
message and sets the flag. -/
theorem runCycle_fresh {sendOk : JVal → Bool} {env : FetchEnv} {st st1 : BotState}
    {evs : List Event} (hsent : st.startup_message_sent = false)
    (h : runCycle sendOk env st = .ok (st1, evs)) :
    startupCount evs = 1 ∧ st1.startup_message_sent = true := by
  simp only [runCycle] at h
  cases hml : pyToList (fetch_live_matches env) with
  | error e => rw [hml] at h; simp [exErrBind] at h
  | ok ms =>
    simp only [hml, exOkBind] at h
    cases hcp : check_for_3goals_and_alert sendOk st.notified ms with
    | error e => rw [hcp] at h; simp [exErrBind] at h
    | ok p =>
      obtain ⟨s1, alerts⟩ := p
      simp only [hcp, exOkBind] at h
      rw [if_neg (by simp [hsent])] at h
      cases hmt : format_startup_message ms with
      | error e => rw [hmt] at h; simp [exErrBind] at h
      | ok msg =>
        simp only [hmt, exOkBind] at h
        cases hsa : startupAdds s1 ms with
        | error e => rw [hsa] at h; simp [exErrBind] at h
        | ok s2v =>
          simp only [hsa, exOkBind, exPure, Except.ok.injEq, Prod.mk.injEq] at h
          obtain ⟨hst, hevs⟩ := h
          subst hst; subst hevs
          exact ⟨startupCount_alerts_startup alerts msg, rfl⟩

/-- After the startup flag is set, no later cycle ever emits a startup
message again. -/
theorem run_bot_sent {sendOk : JVal → Bool} :
    ∀ {envs : List FetchEnv} {st st2 : BotState} {evss : List (List Event)},
      st.startup_message_sent = true →
      run_bot sendOk st envs = .ok (st2, evss) →
      startupCount evss.flatten = 0 := by
  intro envs
  induction envs with
  | nil =>
    intro st st2 evss hs h
    simp only [run_bot, Except.ok.injEq, Prod.mk.injEq] at h
    obtain ⟨_, ha⟩ := h
    subst ha
    rfl
  | cons env envs ih =>
    intro st st2 evss hs h
    simp only [run_bot] at h
    cases hc : runCycle sendOk env st with
    | error e => rw [hc] at h; simp [exErrBind] at h
    | ok p =>
      obtain ⟨st1, evs⟩ := p
      simp only [hc, exOkBind] at h
      cases hrest : run_bot sendOk st1 envs with
      | error e => rw [hrest] at h; simp [exErrBind] at h
      | ok q =>
        obtain ⟨st2x, evss2⟩ := q
        simp only [hrest, exOkBind, exPure, Except.ok.injEq, Prod.mk.injEq] at h
        obtain ⟨hst, hevss⟩ := h
        subst hevss
        obtain ⟨hcnt, hsent1⟩ := runCycle_sent hs hc
        rw [List.flatten_cons, startupCount_append, hcnt, ih hsent1 hrest]

/-- Claim C8 amended: starting from the initial state, the startup
summary is sent exactly once over the whole run, namely on the very
first poll cycle, whether or not that cycle's fetch succeeded. -/
theorem claim_C8_amended (sendOk : JVal → Bool) (env : FetchEnv) (envs : List FetchEnv)
    (st2 : BotState) (evss : List (List Event))
    (h : run_bot sendOk initState (env :: envs) = .ok (st2, evss)) :
    startupCount evss.flatten = 1 ∧ evss.head?.map startupCount = some 1 := by
  simp only [run_bot] at h
  cases hc : runCycle sendOk env initState with
  | error e => rw [hc] at h; simp [exErrBind] at h
  | ok p =>
    obtain ⟨st1, evs⟩ := p
    simp only [hc, exOkBind] at h
    cases hrest : run_bot sendOk st1 envs with
    | error e => rw [hrest] at h; simp [exErrBind] at h
    | ok q =>
      obtain ⟨st2x, evss2⟩ := q
      simp only [hrest, exOkBind, exPure, Except.ok.injEq, Prod.mk.injEq] at h
      obtain ⟨hst, hevss⟩ := h
      subst hevss
      obtain ⟨h1, hsent⟩ := runCycle_fresh rfl hc
      have h2 := run_bot_sent hsent hrest
      constructor
      · rw [List.flatten_cons, startupCount_append, h1, h2]
      · simp [h1]

/-- Claim C8 as stated is false: a process whose first fetch fails (a
network error) still sends the startup summary on that failed cycle,
not on the first successful fetch. -/
theorem claim_C8_counterexample :
    isFetchFailure FetchEnv.liveRequestError = true ∧
    run_bot (fun _ => true) initState [FetchEnv.liveRequestError] =
      .ok ({ notified := [], startup_message_sent := true },
           [[Event.startup noLiveMatchesMsg]]) :=
  ⟨rfl, by rfl⟩

/-- Witness for the amended claim C8 over a two-cycle run whose fetches
both fail. -/
theorem claim_C8_amended_witness :
    startupCount ([[Event.startup noLiveMatchesMsg], []] : List (List Event)).flatten = 1 ∧
    ([[Event.startup noLiveMatchesMsg], []] : List (List Event)).head?.map startupCount = some 1 :=
  claim_C8_amended (fun _ => true) FetchEnv.liveRequestError [FetchEnv.liveRequestError]
    { notified := [], startup_message_sent := true }
    [[Event.startup noLiveMatchesMsg], []] (by rfl)

theorem startupAdds_mono {i : JVal} :
    ∀ {ms : List JVal} {s s2 : List JVal},
      startupAdds s ms = .ok s2 → i ∈ s → i ∈ s2 := by
  intro ms
  induction ms with
  | nil =>
    intro s s2 h hm
    simp only [startupAdds, Except.ok.injEq] at h
    subst h
    exact hm
  | cons m ms ih =>
    intro s s2 h hm
    simp only [startupAdds] at h
    cases hp : parse_sofascore_match m with
    | error e => rw [hp] at h; simp [exErrBind] at h
    | ok d =>
      simp only [hp, exOkBind] at h
      split_ifs at h with hc
      · exact ih h (pyAdd_mem_mono _ hm)
      · exact ih h hm

/-- The startup block of run_bot puts the parsed id of every 3-0 match
of the cycle into the notified set unconditionally. -/
theorem startupAdds_adds :
    ∀ {ms : List JVal} {s s2 : List JVal},
      startupAdds s ms = .ok s2 →
      ∀ m ∈ ms, ∀ d, parse_sofascore_match m = .ok d → threeNil d → d.id ∈ s2 := by
  intro ms
  induction ms with
  | nil =>
    intro s s2 h m hm
    exact absurd hm (List.not_mem_nil m)
  | cons m1 ms ih =>
    intro s s2 h m hm d hp hcond
    simp only [startupAdds] at h
    cases hp1 : parse_sofascore_match m1 with
    | error e => rw [hp1] at h; simp [exErrBind] at h
    | ok d1 =>
      simp only [hp1, exOkBind] at h
      rcases List.mem_cons.mp hm with he | hin
      · subst he
        rw [hp] at hp1
        injection hp1 with hd
        subst hd
        rw [if_pos hcond] at h
        exact startupAdds_mono h (pyAdd_mem_self _ _)
      · split_ifs at h with hc
        · exact ih h m hin d hp hcond
        · exact ih h m hin d hp hcond

/-- Claim C10: on the cycle that sends the startup summary, after the
summary every match parsing to 3-0 or 0-3 has its parsed id added to the
notified set, regardless of the delivery oracle and with no presence
check on the id — in particular an id-less 3-0 match inserts None. -/
theorem claim_C10 (sendOk : JVal → Bool) (env : FetchEnv) (s : List JVal)
    (st2 : BotState) (evs : List Event) (ms : List JVal)
    (h : runCycle sendOk env { notified := s, startup_message_sent := false } = .ok (st2, evs))
    (hml : pyToList (fetch_live_matches env) = .ok ms) :
    ∀ m ∈ ms, ∀ d, parse_sofascore_match m = .ok d → threeNil d → d.id ∈ st2.notified := by
  intro m hm d hp hcond
  simp only [runCycle] at h
  simp only [hml, exOkBind] at h
  cases hcp : check_for_3goals_and_alert sendOk s ms with
  | error e => rw [hcp] at h; simp [exErrBind] at h
  | ok p =>
    obtain ⟨s1, alerts⟩ := p
    simp only [hcp, exOkBind] at h
    rw [if_neg (by simp)] at h
    cases hmt : format_startup_message ms with
    | error e => rw [hmt] at h; simp [exErrBind] at h
    | ok msg =>
      simp only [hmt, exOkBind] at h
      cases hsa : startupAdds s1 ms with
      | error e => rw [hsa] at h; simp [exErrBind] at h
      | ok s2v =>
        simp only [hsa, exOkBind, exPure, Except.ok.injEq, Prod.mk.injEq] at h
        obtain ⟨hst, hevs⟩ := h
        subst hst
        exact startupAdds_adds hsa m hm d hp hcond

/-- Witness for claim C10: with every delivery failing, a successful
fetch whose only live match is the id-less 3-0 record mNoId30 ends the
first cycle with None in the notified set. -/
theorem claim_C10_witness :
    runCycle (fun _ => false) envC10 { notified := [], startup_message_sent := false } =
      .ok (stC10, [Event.startup msgC10]) ∧
    JVal.null ∈ stC10.notified :=
  ⟨by rfl,
    claim_C10 (fun _ => false) envC10 [] stC10 [Event.startup msgC10] [mNoId30]
      (by rfl) (by rfl) mNoId30 (List.mem_singleton.mpr rfl) dNoId30 (by rfl) (by decide)⟩
